import Mathlib

/-!
Shallow embedding of the n8n-clone repository glue code:
the protected server page and the direct-Prisma page (src/app/page.tsx),
the signup page and the prefetching page (src/app/(auth)/signup/page.tsx),
the `Client` component, and the behavior of the library calls they make
(`prefetchQuery`, `dehydrate`, `useSuspenseQuery`) as documented by the
in-repo guide notes/trpc-guide.md.
-/

namespace N8nClone

/-- An opaque user record. The repository defines no schema for it; its shape
is owned by the external database and ORM, so we carry only its JSON
serialization as produced by that layer. -/
structure User where
  raw : String
deriving DecidableEq, Repr

/-- The external database: the spec describes only a `user` table. -/
structure Database where
  user : List User
deriving DecidableEq, Repr

/-- A database-layer failure (e.g. database unavailability). -/
structure DbError where
  message : String
deriving DecidableEq, Repr

/-- Modelled from the spec: `prisma.user.findMany` (the `@/lib/db` module is
not under src/). The spec says the user records are "retrieved via an ORM
call (`findMany` over a `user` table)": it returns all records of the
`user` table. -/
def prisma_user_findMany (db : Database) : List User :=
  db.user

/-- Modelled from the spec: the names of the procedures exposed by the tRPC
router (the `@/trpc` modules are not under src/). The spec describes "a
single typed remote procedure (`getUsers`)". -/
inductive ProcName
  | getUsers
deriving DecidableEq, Repr

/-- The router procedure list: exactly the one procedure. -/
def appRouterProcs : List ProcName :=
  [ProcName.getUsers]

/-- Modelled from the spec: dispatching a procedure of the router. `getUsers`
takes no input (its input type is `Unit`) and returns the array of user
records obtained from `prisma.user.findMany`, per the guide ("TRPC procedure
`getUsers` is called on the server; data is fetched from the database (via
Prisma)"). The database argument is `Except` so an unavailable database
surfaces as an error. -/
def invokeProc : ProcName → Unit → Except DbError Database → Except DbError (List User)
  | ProcName.getUsers, _, db => db.map prisma_user_findMany

/-- Modelled from the spec: the server-side caller used by the protected page
(`caller.getUsers()` in src/app/page.tsx); it invokes the `getUsers`
procedure with no arguments. -/
def caller_getUsers (db : Except DbError Database) : Except DbError (List User) :=
  invokeProc ProcName.getUsers () db

/-- tRPC query options: the procedure key and its (empty) input, as produced
by `trpc.getUsers.queryOptions()`. -/
structure QueryOpts where
  procKey : ProcName
  input : Unit
deriving DecidableEq, Repr

/-- `trpc.getUsers.queryOptions()`: options keyed by the `getUsers` procedure
with no input, used by both the prefetching page and the Client component. -/
def trpc_getUsers_queryOptions : QueryOpts :=
  ⟨ProcName.getUsers, ()⟩

/-- The authentication state of a request: an opaque session when the
requester is authenticated, `none` otherwise. -/
structure AuthState where
  session : Option String
deriving DecidableEq, Repr

/-- A redirect issued by a guard. The provided material does not specify the
redirect target, so the redirect carries no data. -/
inductive Redirect
  | redirect
deriving DecidableEq, Repr

/-- Modelled from the spec: `requireAuth` from `@/lib/auth-utils` (not under
src/) is "a guard function that redirects unauthenticated ... users": it
redirects when no session is present and otherwise returns. -/
def requireAuth (s : AuthState) : Except Redirect Unit :=
  if s.session.isSome then Except.ok () else Except.error Redirect.redirect

/-- Modelled from the spec: `requireUnauth` from `@/lib/auth-utils` (not
under src/) redirects "already-authenticated users": it redirects when a
session is present and otherwise returns. -/
def requireUnauth (s : AuthState) : Except Redirect Unit :=
  if s.session.isSome then Except.error Redirect.redirect else Except.ok ()

/-- The state of the `getUsers` entry of a query client cache: never
fetched, resolved with data, or rejected with an error. -/
inductive QueryState
  | empty
  | success (data : List User)
  | failure (e : DbError)
deriving DecidableEq, Repr

/-- A query client: the cache for the single query of this app. -/
structure QueryClient where
  getUsersQuery : QueryState
deriving DecidableEq, Repr

/-- `getQueryClient()`: per the guide it returns the per-request query
client, freshly created (cache empty) for the request being rendered. -/
def getQueryClient : QueryClient :=
  ⟨QueryState.empty⟩

/-- `queryClient.prefetchQuery(opts)`: per the guide, the procedure is
called on the server and the "result is stored in the query client cache";
`prefetchQuery` itself never throws — a rejection is recorded in the cache
as a failed query. The fetch outcome is a parameter of the model. -/
def prefetchQuery (qc : QueryClient) (opts : QueryOpts)
    (outcome : Except DbError (List User)) : QueryClient :=
  match opts.procKey with
  | ProcName.getUsers =>
    match outcome with
    | Except.ok data => { qc with getUsersQuery := QueryState.success data }
    | Except.error e => { qc with getUsersQuery := QueryState.failure e }

/-- `dehydrate(queryClient)`: per the guide, "serializes the query client
state" into a plain value that is embedded in the HTML response. -/
def dehydrate (qc : QueryClient) : QueryState :=
  qc.getUsersQuery

/-- Rendered output: the JSX element trees the components return. Every div
in the sources has a literal child list of one or three children, so the
arity is part of the constructor (`div1`, `div3`). -/
inductive Node
  | text (s : String)
  | div1 (className : String) (child : Node)
  | div3 (className : String) (a b c : Node)
  | logout
  | registerForm
  | spinner
  | clientSlot
  | suspense (fallback : Node) (child : Node)
  | hydrationBoundary (state : QueryState) (child : Node)
deriving DecidableEq, Repr

/-- `JSON.stringify(users)`: the compact JSON array of the records, each
record contributing its serialization unchanged. -/
def jsonStringify (users : List User) : String :=
  "[" ++ String.intercalate "," (users.map User.raw) ++ "]"

/-- `JSON.stringify(users, null, 2)`: the pretty-printed JSON array, each
record contributing its serialization unchanged. -/
def jsonStringifyPretty (users : List User) : String :=
  match users with
  | [] => "[]"
  | _ => "[\n  " ++ String.intercalate ",\n  " (users.map User.raw) ++ "\n]"

/-- Observable effects a page performs while rendering, in order. -/
inductive Event
  | authCheck
  | dbQuery
  | consoleLog (s : String)
deriving DecidableEq, Repr

/-- A failure escaping a page component: a guard redirect or a database
error, passed through unchanged to the surrounding framework. -/
inductive PageError
  | redirect (r : Redirect)
  | db (e : DbError)
deriving DecidableEq, Repr

/-- The protected server page (src/app/page.tsx, first version): awaits
`requireAuth()`, then awaits `caller.getUsers()`, then renders the heading,
the pretty-printed JSON of the data, and the Logout component. Returns the
result together with the ordered effect trace. -/
def protectedHomePage (auth : AuthState) (db : Except DbError Database) :
    Except PageError Node × List Event :=
  match requireAuth auth with
  | Except.error r => (Except.error (PageError.redirect r), [Event.authCheck])
  | Except.ok _ =>
    match caller_getUsers db with
    | Except.error e => (Except.error (PageError.db e), [Event.authCheck, Event.dbQuery])
    | Except.ok data =>
      (Except.ok (Node.div3 "min-h-screen min-w-screen flex items-center justify-center"
          (Node.text "Protected Server Components")
          (Node.div1 "" (Node.text (jsonStringifyPretty data)))
          Node.logout),
       [Event.authCheck, Event.dbQuery])

/-- The direct-Prisma page (src/app/page.tsx, second version): awaits
`prisma.user.findMany()`, logs the users, and renders their compact JSON. -/
def prismaHomePage (db : Except DbError Database) :
    Except PageError Node × List Event :=
  match db.map prisma_user_findMany with
  | Except.error e => (Except.error (PageError.db e), [Event.dbQuery])
  | Except.ok users =>
    (Except.ok (Node.div1 "text-3xl text-center font-bold underline"
        (Node.text (jsonStringify users))),
     [Event.dbQuery, Event.consoleLog (jsonStringify users)])

/-- The signup page (src/app/(auth)/signup/page.tsx, first version): awaits
`requireUnauth()` and then renders the RegisterForm. -/
def signupPage (auth : AuthState) : Except PageError Node :=
  match requireUnauth auth with
  | Except.error r => Except.error (PageError.redirect r)
  | Except.ok _ => Except.ok Node.registerForm

/-- The prefetching page (src/app/(auth)/signup/page.tsx, second version):
gets the query client, starts `prefetchQuery(trpc.getUsers.queryOptions())`
discarding the promise with `void`, and returns the element wrapping the
Client slot in a HydrationBoundary whose state is `dehydrate(queryClient)`.
The page itself never fails: it returns a `Node` for every fetch outcome. -/
def prefetchHomePage (fetchOutcome : Except DbError (List User)) : Node :=
  let queryClient := getQueryClient
  let queryClient := prefetchQuery queryClient trpc_getUsers_queryOptions fetchOutcome
  Node.div1 "min-h-screen min-w-screen flex items-center justify-center"
    (Node.hydrationBoundary (dehydrate queryClient)
      (Node.suspense Node.spinner Node.clientSlot))

/-- Modelled from the spec and guide: `useSuspenseQuery(opts)`. Per the
guide, it "checks if data exists in the hydrated cache"; if so "it returns
immediately" without a new request; otherwise the component suspends, the
query is fetched, and once data arrives the component re-renders — so after
it returns, data is available. The result pairs the data with whether a
fetch request was triggered; a rejected fetch escapes to the surrounding
boundary as the error. -/
def useSuspenseQuery (opts : QueryOpts) (hydrated : QueryState)
    (fetchOutcome : Except DbError (List User)) :
    Except DbError (List User × Bool) :=
  match opts.procKey with
  | ProcName.getUsers =>
    match hydrated with
    | QueryState.success data => Except.ok (data, false)
    | _ => fetchOutcome.map (fun d => (d, true))

/-- The Client component (src/unnamed/part_000): reads
`useSuspenseQuery(trpc.getUsers.queryOptions())` and renders the compact
JSON of the users it returns. The Bool records whether a request was made. -/
def clientComponent (hydrated : QueryState)
    (fetchOutcome : Except DbError (List User)) :
    Except DbError (Node × Bool) :=
  (useSuspenseQuery trpc_getUsers_queryOptions hydrated fetchOutcome).map
    (fun p => (Node.div1 "" (Node.text (jsonStringify p.1)), p.2))

/-- The kinds of artifacts the repository consists of. -/
inductive ComponentKind
  | guide
  | page
  | client
deriving DecidableEq, Repr

/-- An authentication guard invoked by a page. -/
inductive Guard
  | requireAuth
  | requireUnauth
deriving DecidableEq, Repr

/-- A repository artifact: its file, its exported name, its kind, and the
auth guards it invokes. -/
structure Component where
  path : String
  cname : String
  kind : ComponentKind
  guards : List Guard
deriving DecidableEq, Repr

/-- The inventory of the repository: the guide, the four page component
definitions (two versions in each of the two route files), and the one
client component, each with the guard calls appearing in its body. -/
def repoComponents : List Component :=
  [⟨"notes/trpc-guide.md", "guide", ComponentKind.guide, []⟩,
   ⟨"src/app/page.tsx", "HomePage(protected)", ComponentKind.page, [Guard.requireAuth]⟩,
   ⟨"src/app/page.tsx", "HomePage(prisma)", ComponentKind.page, []⟩,
   ⟨"src/app/(auth)/signup/page.tsx", "Signup", ComponentKind.page, [Guard.requireUnauth]⟩,
   ⟨"src/app/(auth)/signup/page.tsx", "HomePage(prefetch)", ComponentKind.page, []⟩,
   ⟨"unnamed/part_000", "Client", ComponentKind.client, []⟩]

/-- The page components of the inventory. -/
def pageComponents : List Component :=
  repoComponents.filter (fun c => c.kind == ComponentKind.page)

/-- The page components that invoke an authentication guard. -/
def guardedPageComponents : List Component :=
  pageComponents.filter (fun c => !c.guards.isEmpty)

/-- C1: the router exposes exactly one remote procedure, `getUsers`; it takes
no parameters (its input is the empty `Unit` value) and yields the array of
user records; the protected page call site (`caller.getUsers()`) dispatches
to it with no arguments, and the client call site
(`trpc.getUsers.queryOptions()`) is keyed by it with no input. -/
theorem c1_single_remote_procedure :
    (∀ p : ProcName, p = ProcName.getUsers) ∧
    appRouterProcs = [ProcName.getUsers] ∧
    (∀ db : Except DbError Database, caller_getUsers db = invokeProc ProcName.getUsers () db) ∧
    trpc_getUsers_queryOptions.procKey = ProcName.getUsers ∧
    trpc_getUsers_queryOptions.input = () ∧
    (∀ db : Database, invokeProc ProcName.getUsers () (Except.ok db) =
      Except.ok (prisma_user_findMany db)) := by
  exact ⟨fun p => by cases p; rfl, rfl, fun db => rfl, rfl, rfl, fun db => rfl⟩

/-- C2: for every render of the prefetching HomePage, the returned element
passes `dehydrate` of the query client populated by
`prefetchQuery(trpc.getUsers.queryOptions())` as the HydrationBoundary
state, and when the prefetch resolves with data that state is the
successful `getUsers` cache entry holding exactly that data. -/
theorem c2_prefetch_dehydrated_into_page :
    ∀ (outcome : Except DbError (List User)) (data : List User),
      prefetchHomePage outcome =
        Node.div1 "min-h-screen min-w-screen flex items-center justify-center"
          (Node.hydrationBoundary
            (dehydrate (prefetchQuery getQueryClient trpc_getUsers_queryOptions outcome))
            (Node.suspense Node.spinner Node.clientSlot)) ∧
      prefetchHomePage (Except.ok data) =
        Node.div1 "min-h-screen min-w-screen flex items-center justify-center"
          (Node.hydrationBoundary (QueryState.success data)
            (Node.suspense Node.spinner Node.clientSlot)) := by
  intro outcome data
  exact ⟨by cases outcome <;> rfl, rfl⟩

/-- C3: the protected page checks authentication first: with no session the
render is the guard redirect and its trace is only the auth check (no
database query event and no page content); with a session the auth check is
the head of the trace and the database query happens strictly after it. -/
theorem c3_auth_precedes_query :
    ∀ (sid : String) (db : Except DbError Database),
      protectedHomePage ⟨none⟩ db =
        (Except.error (PageError.redirect Redirect.redirect), [Event.authCheck]) ∧
      (protectedHomePage ⟨some sid⟩ db).2.head? = some Event.authCheck ∧
      (protectedHomePage ⟨some sid⟩ db).2 = [Event.authCheck, Event.dbQuery] := by
  intro sid db
  refine ⟨rfl, ?_, ?_⟩ <;> cases db <;> rfl

/-- C4: the guards redirect in both directions: `requireAuth` redirects a
sessionless request and admits a session, `requireUnauth` redirects a
session and admits a sessionless request, and the signup page renders the
RegisterForm exactly in the unauthenticated case (the authenticated case is
the redirect, with no RegisterForm). -/
theorem c4_guards_redirect_both_directions :
    ∀ sid : String,
      requireAuth ⟨none⟩ = Except.error Redirect.redirect ∧
      requireAuth ⟨some sid⟩ = Except.ok () ∧
      requireUnauth ⟨some sid⟩ = Except.error Redirect.redirect ∧
      requireUnauth ⟨none⟩ = Except.ok () ∧
      signupPage ⟨some sid⟩ = Except.error (PageError.redirect Redirect.redirect) ∧
      signupPage ⟨none⟩ = Except.ok Node.registerForm := by
  intro sid
  exact ⟨rfl, rfl, rfl, rfl, rfl, rfl⟩

/-- C5: every page that displays user data renders `JSON.stringify` of the
exact record list the data source returned — the protected page pretty-
prints `caller.getUsers()`, the Prisma page prints `findMany`, and the
Client prints the `useSuspenseQuery` data — with no transformation,
validation, or filtering between fetch and display. -/
theorem c5_direct_json_display :
    ∀ (sid : String) (users : List User) (fetch : Except DbError (List User)),
      (protectedHomePage ⟨some sid⟩ (Except.ok ⟨users⟩)).1 =
        Except.ok (Node.div3 "min-h-screen min-w-screen flex items-center justify-center"
          (Node.text "Protected Server Components")
          (Node.div1 "" (Node.text (jsonStringifyPretty users)))
          Node.logout) ∧
      (prismaHomePage (Except.ok ⟨users⟩)).1 =
        Except.ok (Node.div1 "text-3xl text-center font-bold underline"
          (Node.text (jsonStringify users))) ∧
      clientComponent (QueryState.success users) fetch =
        Except.ok (Node.div1 "" (Node.text (jsonStringify users)), false) ∧
      clientComponent QueryState.empty (Except.ok users) =
        Except.ok (Node.div1 "" (Node.text (jsonStringify users)), true) := by
  intro sid users fetch
  exact ⟨rfl, rfl, rfl, rfl⟩

/-- C6: the Client reads the hydrated cache or else fetches: hydrated data
is returned with no request; an empty (or failed) hydrated entry triggers a
fetch, and the render carries its result; and every Client render either
shows a defined user list or escapes to the surrounding boundary — no
rendered output with undefined data exists. -/
theorem c6_hydrated_read_or_fetch :
    ∀ (data users : List User) (e : DbError) (fetch : Except DbError (List User))
      (hydrated : QueryState),
      useSuspenseQuery trpc_getUsers_queryOptions (QueryState.success data) fetch =
        Except.ok (data, false) ∧
      useSuspenseQuery trpc_getUsers_queryOptions QueryState.empty (Except.ok users) =
        Except.ok (users, true) ∧
      useSuspenseQuery trpc_getUsers_queryOptions (QueryState.failure e) (Except.ok users) =
        Except.ok (users, true) ∧
      ((∃ us req, clientComponent hydrated fetch =
          Except.ok (Node.div1 "" (Node.text (jsonStringify us)), req)) ∨
        (∃ err, clientComponent hydrated fetch = Except.error err)) := by
  intro data users e fetch hydrated
  refine ⟨rfl, rfl, rfl, ?_⟩
  cases hydrated <;> cases fetch <;>
    first
      | exact Or.inl ⟨_, _, rfl⟩
      | exact Or.inr ⟨_, rfl⟩

/-- C7 counterexample: the claim fails on the inventory — two page
components, not one, invoke an authentication guard (the protected
HomePage invokes requireAuth and Signup invokes requireUnauth), and the
source material holds four page component definitions, not two to three. -/
theorem c7_counterexample :
    guardedPageComponents.map Component.cname = ["HomePage(protected)", "Signup"] ∧
    guardedPageComponents.length = 2 ∧
    (guardedPageComponents.length == 1) = false ∧
    pageComponents.length = 4 ∧
    (Nat.ble 2 pageComponents.length && Nat.ble pageComponents.length 3) = false := by
  exact ⟨rfl, rfl, by decide, rfl, by decide⟩

/-- C7 amended: the repository consists of one documentation guide, four
page component definitions (two versions in each of the two route files),
and one client component; exactly one page invokes requireAuth (the
protected HomePage) and exactly one invokes requireUnauth (Signup), so two
pages in all are gated by an authentication guard. -/
theorem c7_amended_component_inventory :
    (repoComponents.filter (fun c => c.kind == ComponentKind.guide)).length = 1 ∧
    pageComponents.length = 4 ∧
    (repoComponents.filter (fun c => c.kind == ComponentKind.client)).length = 1 ∧
    (pageComponents.filter (fun c => c.guards.contains Guard.requireAuth)).length = 1 ∧
    (pageComponents.filter (fun c => c.guards.contains Guard.requireUnauth)).length = 1 ∧
    guardedPageComponents.length = 2 := by
  exact ⟨rfl, rfl, rfl, rfl, rfl, rfl⟩

/-- C8: no page catches or translates failures: a database error escapes
the protected page and the Prisma page as the very same error value, a
guard redirect escapes the protected and signup pages unchanged, and a
fetch rejection escapes the Client component as the same error. -/
theorem c8_failures_propagate_unchanged :
    ∀ (sid : String) (e : DbError),
      (protectedHomePage ⟨some sid⟩ (Except.error e)).1 = Except.error (PageError.db e) ∧
      (protectedHomePage ⟨none⟩ (Except.error e)).1 =
        Except.error (PageError.redirect Redirect.redirect) ∧
      (prismaHomePage (Except.error e)).1 = Except.error (PageError.db e) ∧
      signupPage ⟨some sid⟩ = Except.error (PageError.redirect Redirect.redirect) ∧
      clientComponent QueryState.empty (Except.error e) = Except.error e ∧
      clientComponent (QueryState.failure e) (Except.error e) = Except.error e := by
  intro sid e
  exact ⟨rfl, rfl, rfl, rfl, rfl, rfl⟩

/-- C9: the prefetching HomePage does not await the prefetch: it returns
its element for every fetch outcome, and in particular a rejected prefetch
still yields the full page element (with the failure recorded in the
dehydrated state), never a render failure. -/
theorem c9_render_regardless_of_prefetch :
    ∀ (outcome : Except DbError (List User)) (e : DbError),
      (∃ st, prefetchHomePage outcome =
        Node.div1 "min-h-screen min-w-screen flex items-center justify-center"
          (Node.hydrationBoundary st (Node.suspense Node.spinner Node.clientSlot))) ∧
      prefetchHomePage (Except.error e) =
        Node.div1 "min-h-screen min-w-screen flex items-center justify-center"
          (Node.hydrationBoundary (QueryState.failure e)
            (Node.suspense Node.spinner Node.clientSlot)) := by
  intro outcome e
  exact ⟨⟨_, rfl⟩, rfl⟩

/-- C10: each page is deterministic in the fetched data: the protected page
output does not depend on which session is present, the Prisma page output
is the same whenever `findMany` returns the same list, and two Client
renders whose `useSuspenseQuery` data agree render the same node. -/
theorem c10_deterministic_in_fetched_data :
    ∀ (sid1 sid2 : String) (db : Except DbError Database)
      (h1 h2 : QueryState) (f1 f2 : Except DbError (List User))
      (us : List User) (r1 r2 : Bool),
      protectedHomePage ⟨some sid1⟩ db = protectedHomePage ⟨some sid2⟩ db ∧
      (∀ db1 db2 : Database, prisma_user_findMany db1 = prisma_user_findMany db2 →
        prismaHomePage (Except.ok db1) = prismaHomePage (Except.ok db2)) ∧
      (useSuspenseQuery trpc_getUsers_queryOptions h1 f1 = Except.ok (us, r1) →
        useSuspenseQuery trpc_getUsers_queryOptions h2 f2 = Except.ok (us, r2) →
        (clientComponent h1 f1).map Prod.fst = (clientComponent h2 f2).map Prod.fst) := by
  intro sid1 sid2 db h1 h2 f1 f2 us r1 r2
  refine ⟨by cases db <;> rfl, ?_, ?_⟩
  · intro db1 db2 h
    simp only [prismaHomePage, Except.map, h]
  · intro ha hb
    simp only [clientComponent, ha, hb, Except.map]

/-- C10 witness: the determinism theorem applied at a concrete session pair,
a concrete database, and a hydrated-versus-fetched Client pair that agree
on the user list. -/
theorem c10_witness :
    protectedHomePage ⟨some "a"⟩ (Except.ok ⟨[⟨"u1"⟩]⟩) =
      protectedHomePage ⟨some "b"⟩ (Except.ok ⟨[⟨"u1"⟩]⟩) ∧
    prismaHomePage (Except.ok ⟨[⟨"u1"⟩]⟩) = prismaHomePage (Except.ok ⟨[⟨"u1"⟩]⟩) ∧
    (clientComponent (QueryState.success [⟨"u1"⟩]) (Except.error ⟨"db down"⟩)).map Prod.fst =
      (clientComponent QueryState.empty (Except.ok [⟨"u1"⟩])).map Prod.fst := by
  have h := c10_deterministic_in_fetched_data "a" "b" (Except.ok ⟨[⟨"u1"⟩]⟩)
    (QueryState.success [⟨"u1"⟩]) QueryState.empty
    (Except.error ⟨"db down"⟩) (Except.ok [⟨"u1"⟩]) [⟨"u1"⟩] false true
  exact ⟨h.1, h.2.1 ⟨[⟨"u1"⟩]⟩ ⟨[⟨"u1"⟩]⟩ rfl, h.2.2 rfl rfl⟩

end N8nClone
